import Mathlib

/-!
Verification development for a multi-robot fleet coordination program.

The program coordinates robots moving over a shared navigation graph:
`NavGraph` (graph loading and shortest-path queries), `Robot` (per-tick
motion state machine over per-vertex reservations), `FleetManager`
(spawning and task assignment) and `TrafficManager` (per-tick collision
pass with priority resolution and hysteresis).

Numeric embedding: the program computes over machine floats; here all
scalars are rationals and the two transcendental routines it uses
(`math.hypot` i.e. square root, and `math.acos`) are supplied through an
explicit `NumModel` parameter.  Every general theorem is proved for an
arbitrary `NumModel`, hence holds for any realization of these routines;
concrete evaluations instantiate `ratNumModel`, whose square root is
exact on all inputs exercised (perfect rational squares, axis-aligned
configurations) and whose arccos is exact at the only argument exercised
(`arccos 1 = 0`).

Python-dynamic aspects are embedded explicitly:
* a route entry is either a `(vertex_index, point)` pair (the format
  `Robot.update_position` consumes) or a bare point (the format
  `FleetManager.assign_task` and `TrafficManager.replan_route` produce);
  reading an entry in the wrong format is Python's `TypeError`, embedded
  as `Except.error`;
* dictionary access to a missing vertex key is `KeyError`, embedded as
  `Except.error`.  The per-vertex key `reserved_by` is embedded as a
  total field (an absent key, read through `.get`, conflated with a
  stored `None`); no settled claim distinguishes the two, since every
  branch they reason about requires the key to be present.  The
  per-vertex key `waiting_queue`, by contrast, is embedded as an
  `Option`: `load_graph` never creates that key and nothing else does
  either, so its only access — the append in `assign_task` — raises
  `KeyError` whenever the key is absent, and the embedding keeps that
  error path.
-/

unseal Rat.add Rat.mul Rat.sub Rat.inv Rat.ofScientific

/-- Numeric routines the program takes from the float math library:
`sqrt` models `math.sqrt`/`math.hypot`, `arccos` models `math.acos`. -/
structure NumModel where
  sqrt : ℚ → ℚ
  arccos : ℚ → ℚ

/-- Bisection step for the integer square root (structurally recursive,
so concrete states evaluate inside the kernel). -/
def isqrtGo (n : Nat) : Nat → Nat → Nat → Nat
  | 0, lo, _ => lo
  | fuel + 1, lo, hi =>
    if hi ≤ lo then lo
    else
      let mid := (lo + hi + 1) / 2
      if mid * mid ≤ n then isqrtGo n fuel mid hi
      else isqrtGo n fuel lo (mid - 1)

/-- Integer square root: the largest `r` with `r * r ≤ n`, for every
`n < 2 ^ 64` (64 bisection steps). -/
def isqrt (n : Nat) : Nat := isqrtGo n 64 0 n

/-- Rational square root (the same construction as `Rat.sqrt`: integer
square roots of numerator and denominator).  Exact on every perfect
rational square, which covers all inputs exercised by the concrete
states below. -/
def ratSqrt (q : ℚ) : ℚ := mkRat (isqrt q.num.toNat) (isqrt q.den)

/-- Concrete numeric model used for evaluations: `ratSqrt` (exact on
perfect rational squares) and an arccos that is exact at argument `1`
(`arccos 1 = 0`), the only argument the concrete states produce. -/
def ratNumModel : NumModel where
  sqrt := ratSqrt
  arccos := fun v => if 1 ≤ v then 0 else 1

/-- Model of `math.hypot(dx, dy)`. -/
def hypotM (M : NumModel) (dx dy : ℚ) : ℚ :=
  M.sqrt (dx * dx + dy * dy)

deriving instance DecidableEq for Except

/-- Python exceptions that the embedded code can raise. -/
inductive PyErr where
  | keyError
  | typeError
  | indexError
deriving DecidableEq, Repr

/-- A route entry.  `robot.py` consumes routes of `(vertex_index, QPointF)`
tuples (`pair`); `fleet_manager.py` and `tarffic_manager.py` build routes
of bare `QPointF` (`pt`).  Both shapes occur in the source, so the
embedding keeps the distinction and raises `typeError` on a mismatched
read, exactly as Python does. -/
inductive RouteEntry where
  | pair (vertex : Nat) (point : ℚ × ℚ)
  | pt (point : ℚ × ℚ)
deriving DecidableEq, Repr

/-- One entry of the shared `vertex_items` dictionary (from
`nav_graphs.py` `load_graph`, with the reservation fields the
controllers read and write). -/
structure Vertex where
  pos : ℚ × ℚ
  name : String
  is_charger : Bool
  reserved_by : Option Nat
  waiting_queue : Option (List Nat)
deriving DecidableEq, Repr

/-- The shared `vertex_items` dictionary: vertex index to vertex data. -/
def VMap := List (Nat × Vertex)

instance : DecidableEq VMap := by
  unfold VMap
  infer_instance

/-- Robot state (`robot.py` `Robot.__init__` fields, GUI-only fields
omitted). -/
structure Robot where
  id : Nat
  pos : ℚ × ℚ
  current_vertex_index : Nat
  current_destination_index : Option Nat
  route : List RouteEntry
  speed : ℚ
  selected : Bool
  waiting : Bool
  status : String
deriving DecidableEq, Repr

/-- Dictionary read `vertex_items[idx]`: `KeyError` when absent. -/
def getV (vm : VMap) (idx : Nat) : Except PyErr Vertex :=
  match List.lookup idx vm with
  | some v => .ok v
  | none => .error .keyError

/-- Dictionary update `vertex_items[idx][...] = ...`: the outer key must
exist (else `KeyError`); the field update itself always succeeds. -/
def updV (vm : VMap) (idx : Nat) (f : Vertex → Vertex) : Except PyErr VMap :=
  match List.lookup idx vm with
  | some _ => .ok (vm.map (fun kv => if kv.1 = idx then (kv.1, f kv.2) else kv))
  | none => .error .keyError

/-- The `reserved_by` entry of a vertex, read through the map. -/
def reservedOf (vm : VMap) (idx : Nat) : Option Nat :=
  (List.lookup idx vm).bind Vertex.reserved_by

/-- The `waiting_queue` entry of a vertex, read through the map:
`none` when the vertex or the key is absent. -/
def queueOf (vm : VMap) (idx : Nat) : Option (List Nat) :=
  (List.lookup idx vm).bind Vertex.waiting_queue

/-- Threshold for a robot to be considered at a vertex
(`AT_VERTEX_THRESHOLD` in `robot.py`). -/
def AT_VERTEX_THRESHOLD : ℚ := 5

/-- Tail of `Robot.update_position` after a move: set status moving and
clear `waiting` (done by the caller), then release the current vertex's
reservation if the robot holds it and has moved more than
`AT_VERTEX_THRESHOLD` away from it. -/
def leaveCheck (M : NumModel) (origId : Nat) (vm1 : VMap) (r1 : Robot) :
    Except PyErr (VMap × Robot) :=
  match List.lookup r1.current_vertex_index vm1 with
  | none => .error .keyError
  | some pv =>
    if hypotM M (r1.pos.1 - pv.pos.1) (r1.pos.2 - pv.pos.2)
        > AT_VERTEX_THRESHOLD then
      if pv.reserved_by = some origId then
        match updV vm1 r1.current_vertex_index
            (fun v => { v with reserved_by := none }) with
        | .error e => .error e
        | .ok vm2 => .ok (vm2, r1)
      else .ok (vm1, r1)
    else .ok (vm1, r1)

/-- Model of `Robot.update_position` (`robot.py`).  Mirrors the source:
non-empty route: unpack the head entry as `(next_waypoint_index,
next_point)` (a bare-point entry raises `TypeError`); if the next vertex
is reserved by another robot, set status `waiting` and do not move;
otherwise move toward the waypoint — snapping to it, popping it, and
reserving the vertex when the remaining distance is below `speed` — then
set status `moving`, clear `waiting`, and release the current vertex's
reservation (if held) once the robot is more than `AT_VERTEX_THRESHOLD`
away from it.  Empty route: if a destination is set and the robot is
within `AT_VERTEX_THRESHOLD` of it, finalize `current_vertex_index`
there and reserve it; then an active status becomes `task complete`.
The straight-line step `speed * cos/sin (atan2 dy dx)` is written as
`speed * dx / distance` / `speed * dy / distance`, the same value
whenever `(dx, dy) ≠ (0, 0)`; when `dx = dy = 0` the source moves by
`speed * cos/sin 0 = (speed, 0)` only in the unreachable case
`distance = 0 ∧ ¬ distance < speed ∧ speed < 0`, and division by zero
makes the embedded step `(0, 0)` there. -/
def updatePosition (M : NumModel) (vm : VMap) (r : Robot) :
    Except PyErr (VMap × Robot) :=
  match r.route with
  | e :: rest =>
    match e with
    | .pt _ => .error .typeError
    | .pair next_waypoint_index next_point =>
      match List.lookup next_waypoint_index vm with
      | none => .error .keyError
      | some vx =>
        if vx.reserved_by ≠ none ∧ vx.reserved_by ≠ some r.id then
          .ok (vm, { r with status := "waiting", waiting := true })
        else
          let dx := next_point.1 - r.pos.1
          let dy := next_point.2 - r.pos.2
          let distance := hypotM M dx dy
          let step : Except PyErr (VMap × Robot) :=
            if distance < r.speed then
              match updV vm next_waypoint_index
                  (fun v => { v with reserved_by := some r.id }) with
              | .error e => .error e
              | .ok vm1 =>
                .ok (vm1, { r with pos := next_point, route := rest,
                                   current_vertex_index := next_waypoint_index })
            else
              .ok (vm, { r with pos :=
                (r.pos.1 + r.speed * (dx / distance),
                 r.pos.2 + r.speed * (dy / distance)) })
          match step with
          | .error e => .error e
          | .ok (vm1, r0) =>
            leaveCheck M r.id vm1
              { r0 with status := "moving", waiting := false }
  | [] =>
    let step : Except PyErr (VMap × Robot) :=
      match r.current_destination_index with
      | some d =>
        match List.lookup d vm with
        | none => .error .keyError
        | some dv =>
          if hypotM M (r.pos.1 - dv.pos.1) (r.pos.2 - dv.pos.2)
              ≤ AT_VERTEX_THRESHOLD then
            match updV vm d (fun v => { v with reserved_by := some r.id }) with
            | .error e => .error e
            | .ok vm1 => .ok (vm1, { r with current_vertex_index := d })
          else .ok (vm, r)
      | none => .ok (vm, r)
    match step with
    | .error e => .error e
    | .ok (vm1, r1) =>
      if r1.status ∈ (["task assigned", "moving", "waiting"] : List String) then
        .ok (vm1, { r1 with status := "task complete" })
      else
        .ok (vm1, r1)

/-- The loaded navigation graph (`nav_graphs.py` `NavGraph`): the
`vertices` dictionary, the weighted undirected edge set of the
`networkx` graph, and the `lanes` list. -/
structure NavGraphL where
  vertices : List (Nat × Vertex)
  edges : List (Nat × Nat × ℚ)
  lanes : List (Nat × Nat)
deriving DecidableEq, Repr

/-- Undirected adjacency of the `networkx` graph: an edge was added in
either orientation. -/
def adjB (g : NavGraphL) (u v : Nat) : Bool :=
  g.edges.any (fun e => (e.1 == u && e.2.1 == v) || (e.1 == v && e.2.1 == u))

/-- Connectivity of the loaded graph: `v` is joined to `u` by some chain
of lanes.  Path existence is what `nx.astar_path` decides (its weights
and heuristic only select among existing paths). -/
def Reachable (g : NavGraphL) (u v : Nat) : Prop :=
  Relation.ReflTransGen (fun a b => adjB g a b = true) u v

/-- All vertices that can possibly be reached from `u`: `u` itself and
every edge endpoint. -/
def touched (g : NavGraphL) (u : Nat) : Finset Nat :=
  g.edges.foldr (fun e s => insert e.1 (insert e.2.1 s)) {u}

/-- One breadth step: add every candidate vertex adjacent to the set. -/
def stepF (g : NavGraphL) (base s : Finset Nat) : Finset Nat :=
  s ∪ base.filter (fun v => ∃ w ∈ s, adjB g w v = true)

/-- Vertices reachable from `u` in at most `n` steps. -/
def reachF (g : NavGraphL) (u : Nat) : Nat → Finset Nat
  | 0 => {u}
  | n + 1 => stepF g (touched g u) (reachF g u n)

/-- Saturation bound for the breadth iteration. -/
def astarFuel (g : NavGraphL) (u : Nat) : Nat := (touched g u).card

/-- Edge endpoints of the graph as a plain list (used to pick concrete
predecessors during path extraction). -/
def endpointList (g : NavGraphL) : List Nat :=
  g.edges.foldr (fun e l => e.1 :: e.2.1 :: l) []

/-- First already-reached neighbor of `v` among the edge endpoints, used
to lay out one concrete path when extracting a search result. -/
def pickPred (g : NavGraphL) (s : Finset Nat) (v : Nat) : Option Nat :=
  (endpointList g).find? (fun w => decide (w ∈ s) && adjB g w v)

/-- Extract a concrete vertex sequence from `u`'s breadth layers down to
`v`. -/
def extract (g : NavGraphL) (u : Nat) : Nat → Nat → List Nat
  | 0, v => [v]
  | n + 1, v =>
    if v ∈ reachF g u n then extract g u n v
    else
      match pickPred g (reachF g u n) v with
      | some w => extract g u n w ++ [v]
      | none => [v]

/-- Model of the external library routine `nx.astar_path` as called by
`NavGraph.get_shortest_path`: when the destination is connected to the
start it returns a vertex sequence from start to destination (source
included); otherwise it raises `NetworkXNoPath`, embedded as `none`.
Which among the existing paths A* selects depends on the edge weights
and heuristic and is not relied on by any claim settled here; the
behavior on an endpoint that is not a node of the graph (`NodeNotFound`,
which `get_shortest_path` does not catch) is outside this model, so
theorems about it restrict to in-graph endpoints. -/
def astar_path (g : NavGraphL) (u v : Nat) : Option (List Nat) :=
  if v ∈ reachF g u (astarFuel g u) then some (extract g u (astarFuel g u) v)
  else none

/-- Model of `NavGraph.get_shortest_path` (`nav_graphs.py`): run A* and
return its path, catching the no-path signal and returning `[]`. -/
def get_shortest_path (g : NavGraphL) (u v : Nat) : List Nat :=
  (astar_path g u v).getD []

/-- One vertex definition from the navigation input document:
`[x, y, {name?, is_charger?}]`. -/
structure VertexDef where
  x : ℚ
  y : ℚ
  name : Option String
  is_charger : Option Bool
deriving DecidableEq, Repr

/-- One lane definition from the input document: `[from, to, {...}]`. -/
structure LaneDef where
  a : Nat
  b : Nat
deriving DecidableEq, Repr

/-- The vertex/lane lists of one level of the input document. -/
structure LevelData where
  vertices : List VertexDef
  lanes : List LaneDef
deriving DecidableEq, Repr

/-- The navigation input document: an optional `levels` map (insertion
ordered, as Python dicts are) and the root-level data. -/
structure NavDoc where
  levels : List (String × LevelData)
  root : LevelData
deriving DecidableEq, Repr

/-- Level selection in `load_graph`: the first level if a non-empty
`levels` map is present, else the document root. -/
def levelData (d : NavDoc) : LevelData :=
  match d.levels with
  | [] => d.root
  | (_, l) :: _ => l

/-- Vertex construction in `load_graph`: scale 50 and offsets
`(400, 300)` applied to the raw coordinates, default name `V{index}`,
default `is_charger` false. -/
def mkVertex (index : Nat) (vd : VertexDef) : Vertex :=
  { pos := (vd.x * 50 + 400, vd.y * 50 + 300)
    name := vd.name.getD ("V" ++ toString index)
    is_charger := vd.is_charger.getD false
    reserved_by := none
    waiting_queue := none }

/-- The `vertices` dictionary built by enumerating the vertex list. -/
def buildVerts (start : Nat) : List VertexDef → List (Nat × Vertex)
  | [] => []
  | vd :: rest => (start, mkVertex start vd) :: buildVerts (start + 1) rest

/-- Lane processing in `load_graph`: a lane whose endpoints are both
defined contributes an edge weighted by the Euclidean distance between
the stored endpoint positions, and is recorded in `lanes`; other lanes
are skipped. -/
def addLanes (M : NumModel) (verts : List (Nat × Vertex)) :
    List LaneDef → List (Nat × Nat × ℚ) × List (Nat × Nat)
  | [] => ([], [])
  | ld :: rest =>
    let prev := addLanes M verts rest
    match List.lookup ld.a verts, List.lookup ld.b verts with
    | some va, some vb =>
      ((ld.a, ld.b, hypotM M (vb.pos.1 - va.pos.1) (vb.pos.2 - va.pos.2)) :: prev.1,
       (ld.a, ld.b) :: prev.2)
    | _, _ => prev

/-- Model of `NavGraph.load_graph` (`nav_graphs.py`), after the JSON
document has been parsed into a `NavDoc`. -/
def loadGraph (M : NumModel) (d : NavDoc) : NavGraphL :=
  let lv := levelData d
  let vs := buildVerts 0 lv.vertices
  let el := addLanes M vs lv.lanes
  { vertices := vs, edges := el.1, lanes := el.2 }

/-- State of `FleetManager` (`fleet_manager.py`): the roster and the id
counter (GUI scene and selection omitted). -/
structure FleetState where
  robots : List Robot
  robot_counter : Nat
deriving DecidableEq, Repr

/-- State effect of `Robot.__init__` (`robot.py`) when supplied all of
its required arguments `x, y, identifier, current_vertex_index,
vertex_items`: a fresh robot at `(x, y)` with status `unassigned`,
empty route, speed 2, and the starting vertex's `reserved_by` set to
the new id unconditionally (GUI pixmap/color/label construction
omitted). -/
def robotInit (x y : ℚ) (identifier : Nat) (current_vertex_index : Nat)
    (vm : VMap) : Except PyErr (Robot × VMap) :=
  match updV vm current_vertex_index
      (fun v => { v with reserved_by := some identifier }) with
  | .error e => .error e
  | .ok vm1 =>
    .ok ({ id := identifier
           pos := (x, y)
           current_vertex_index := current_vertex_index
           current_destination_index := none
           route := []
           speed := 2
           selected := false
           waiting := false
           status := "unassigned" }, vm1)

/-- Model of `FleetManager.spawn_robot` (`fleet_manager.py`).  The
source calls `Robot(position[0], position[1], self.robot_counter,
vertex_index)`, but `Robot.__init__` declares five required positional
parameters ending in `vertex_items`; the four-argument call therefore
raises `TypeError: __init__() missing 1 required positional argument`
before any constructor code runs, so the operation always fails. -/
def spawn_robot (st : FleetState) (vertex_index : Nat) (position : ℚ × ℚ) :
    Except PyErr (FleetState × Robot) :=
  .error .typeError

/-- Route construction loop shared by `assign_task` and `replan_route`:
for each path vertex in order, look its position up in the vertex map
(`KeyError` when absent) and append it as a bare waypoint. -/
def routeOfPath (vm : VMap) : List Nat → Except PyErr (List RouteEntry)
  | [] => .ok []
  | idx :: rest =>
    match List.lookup idx vm with
    | none => .error .keyError
    | some v =>
      match routeOfPath vm rest with
      | .error e => .error e
      | .ok route => .ok (RouteEntry.pt v.pos :: route)

/-- Position stored for a vertex index, with a default for absent
indices (used only to state route contents when all lookups succeed). -/
def posOf (vm : VMap) (idx : Nat) : ℚ × ℚ :=
  ((List.lookup idx vm).map Vertex.pos).getD (0, 0)

/-- Model of `FleetManager.assign_task` (`fleet_manager.py`).  Mirrors
the source: look up the destination vertex (`KeyError` if absent); if
its `reserved_by` is set, append the robot id to the vertex's
`waiting_queue` entry — which raises `KeyError` when that key is
absent, as it is in every state this program produces, since nothing
ever creates it — and only then set the robot's status to `waiting`;
otherwise reserve the
vertex for the robot, set status `task assigned`, query the path from
the robot's current vertex, and when the path is non-empty set the
route to the bare positions of all path vertices (the start included,
no vertex indices attached) and set `current_vertex_index` to the
destination.  `current_destination_index` is not written on any
branch. -/
def assignTask (g : NavGraphL) (r : Robot) (dest_vertex_index : Nat)
    (vm : VMap) : Except PyErr (Robot × VMap) :=
  match List.lookup dest_vertex_index vm with
  | none => .error .keyError
  | some vx =>
    match vx.reserved_by with
    | some _ =>
      match vx.waiting_queue with
      | none => .error .keyError
      | some q =>
        match updV vm dest_vertex_index
            (fun v => { v with waiting_queue := some (q ++ [r.id]) }) with
        | .error e => .error e
        | .ok vm1 => .ok ({ r with status := "waiting" }, vm1)
    | none =>
      match updV vm dest_vertex_index
          (fun v => { v with reserved_by := some r.id }) with
      | .error e => .error e
      | .ok vm1 =>
        let r1 := { r with status := "task assigned" }
        let path := get_shortest_path g r.current_vertex_index dest_vertex_index
        if path.isEmpty then
          .ok (r1, vm1)
        else
          match routeOfPath vm1 path with
          | .error e => .error e
          | .ok route =>
            .ok ({ r1 with route := route,
                           current_vertex_index := dest_vertex_index }, vm1)

/-- `TrafficManager.__init__` parameters (`tarffic_manager.py`). -/
structure TMParams where
  default_speed : ℚ
  collision_threshold : ℚ
  release_margin : ℚ
  angle_threshold : ℚ
deriving DecidableEq, Repr

/-- The constructor defaults of `TrafficManager`. -/
def defaultTM : TMParams :=
  { default_speed := 2, collision_threshold := 20, release_margin := 10,
    angle_threshold := 1/2 }

/-- Reset pass of `TrafficManager.check_collisions`, applied to each
robot: restore default speed unless `waiting`; status becomes `moving`
when a route remains, else `task complete` when previously active. -/
def resetRobot (p : TMParams) (r : Robot) : Robot :=
  let r1 := if ¬ r.waiting then { r with speed := p.default_speed } else r
  if r1.route ≠ [] then { r1 with status := "moving" }
  else if r1.status ∈ (["task assigned", "moving", "waiting"] : List String) then
    { r1 with status := "task complete" }
  else r1

/-- Segment-length accumulation of
`TrafficManager.compute_remaining_distance`: each route entry must be a
bare point (as the routes this manager builds are); a paired entry
would make `point.x()` raise `TypeError`. -/
def remAux (M : NumModel) (prev : ℚ × ℚ) :
    List RouteEntry → Except PyErr ℚ
  | [] => .ok 0
  | .pt q :: rest =>
    match remAux M q rest with
    | .error e => .error e
    | .ok t => .ok (hypotM M (q.1 - prev.1) (q.2 - prev.2) + t)
  | .pair _ _ :: _ => .error .typeError

/-- Model of `TrafficManager.compute_remaining_distance`
(`tarffic_manager.py`): 0 for an empty route, else the sum of segment
lengths from the robot's position through all waypoints. -/
def computeRemaining (M : NumModel) (r : Robot) : Except PyErr ℚ :=
  match r.route with
  | [] => .ok 0
  | route => remAux M r.pos route

/-- Model of `TrafficManager.replan_route` (`tarffic_manager.py`): with
no destination set, log and do nothing; otherwise recompute the path to
the destination and, when non-empty, overwrite the route with the bare
positions of all path vertices; on an empty path log and keep the
route. -/
def replanRoute (r : Robot) (vm : VMap) (g : NavGraphL) :
    Except PyErr Robot :=
  match r.current_destination_index with
  | none => .ok r
  | some dest_index =>
    let new_path := get_shortest_path g r.current_vertex_index dest_index
    if new_path.isEmpty then
      .ok r
    else
      match routeOfPath vm new_path with
      | .error e => .error e
      | .ok route => .ok { r with route := route }

/-- Halting assignment of the conflict pass: `speed = 0`,
`waiting = True`, status `waiting`. -/
def haltR (r : Robot) : Robot :=
  { r with speed := 0, waiting := true, status := "waiting" }

/-- Release assignment of the conflict pass, applied when the
separation exceeds threshold plus margin and the robot is `waiting`. -/
def releaseR (p : TMParams) (r : Robot) : Robot :=
  if r.waiting then
    { r with waiting := false, speed := p.default_speed,
             status := if r.status = "waiting" then "moving" else r.status }
  else r

/-- Clamp of the direction cosine to `[-1, 1]` before `acos`. -/
def clampQ (val : ℚ) : ℚ := max (-1) (min 1 val)

/-- Moving direction of a robot in the conflict pass: unit vector toward
the first route waypoint, `none` for an empty route or a zero-length
segment; the waypoint is read as a bare point (a paired entry raises
`TypeError`). -/
def dirHead (M : NumModel) (r : Robot) :
    Except PyErr (Option (ℚ × ℚ)) :=
  match r.route with
  | [] => .ok none
  | .pair _ _ :: _ => .error .typeError
  | .pt q :: _ =>
    let dx := q.1 - r.pos.1
    let dy := q.2 - r.pos.2
    let norm := hypotM M dx dy
    if norm ≠ 0 then .ok (some (dx / norm, dy / norm)) else .ok none

/-- Replan trigger inside the conflict branch: when the pass was given
the vertex map and graph and the robot has a destination whose vertex
is reserved by someone else, replan that robot. -/
def replanIfBlocked (vmO : Option VMap) (gO : Option NavGraphL)
    (r : Robot) : Except PyErr Robot :=
  match vmO, gO with
  | some vm, some g =>
    match r.current_destination_index with
    | some di =>
      match List.lookup di vm with
      | none => .error .keyError
      | some vx =>
        if vx.reserved_by ≠ none ∧ vx.reserved_by ≠ some r.id then
          replanRoute r vm g
        else
          .ok r
    | none => .ok r
  | _, _ => .ok r

/-- Append a warning unless already recorded this tick. -/
def addWarning (ws : List String) (msg : String) : List String :=
  if msg ∈ ws then ws else ws ++ [msg]

/-- Body of the pairwise loop of `TrafficManager.check_collisions`
(`tarffic_manager.py`, lines 83–192) for the ordered pair `(r1, r2)`:
skip when either robot is selected; within the collision threshold,
trigger replanning for blocked destinations, then — when `r1` has a
moving direction, the separation vector lies ahead of it (`dot > 0`)
and within the angle threshold — halt the robot with the larger
remaining distance, ties and direction-less conflicts halted by the
higher id; beyond threshold plus margin, release `waiting` robots. -/
def pairBody (M : NumModel) (p : TMParams) (vmO : Option VMap)
    (gO : Option NavGraphL) (r1 r2 : Robot) (ws : List String) :
    Except PyErr (Robot × Robot × List String) :=
  if r1.selected ∨ r2.selected then .ok (r1, r2, ws)
  else
    let vec_x := r2.pos.1 - r1.pos.1
    let vec_y := r2.pos.2 - r1.pos.2
    let distance := hypotM M vec_x vec_y
    if distance < p.collision_threshold then
      match replanIfBlocked vmO gO r1 with
      | .error e => .error e
      | .ok r1 =>
      match replanIfBlocked vmO gO r2 with
      | .error e => .error e
      | .ok r2 =>
      match dirHead M r1 with
      | .error e => .error e
      | .ok (some dir) =>
        let dot := vec_x * dir.1 + vec_y * dir.2
        if dot > 0 then
          let angle := M.arccos (clampQ (dot / distance))
          if angle < p.angle_threshold then
            match computeRemaining M r1 with
            | .error e => .error e
            | .ok r1_remaining =>
            match computeRemaining M r2 with
            | .error e => .error e
            | .ok r2_remaining =>
            if r1_remaining > r2_remaining then
              .ok (haltR r1, r2, addWarning ws
                ("Robot " ++ toString r1.id ++
                 " waiting (collision with Robot " ++ toString r2.id ++ ")"))
            else if r2_remaining > r1_remaining then
              .ok (r1, haltR r2, addWarning ws
                ("Robot " ++ toString r2.id ++
                 " waiting (collision with Robot " ++ toString r1.id ++ ")"))
            else if r1.id > r2.id then
              .ok (haltR r1, r2, addWarning ws
                ("Robot " ++ toString r1.id ++
                 " waiting (tie-breaker with Robot " ++ toString r2.id ++ ")"))
            else
              .ok (r1, haltR r2, addWarning ws
                ("Robot " ++ toString r2.id ++
                 " waiting (tie-breaker with Robot " ++ toString r1.id ++ ")"))
          else
            .ok (r1, r2, ws)
        else
          .ok (r1, r2, ws)
      | .ok none =>
        if r1.id > r2.id then
          .ok (haltR r1, r2, addWarning ws
            ("Robot " ++ toString r1.id ++
             " waiting (fallback with Robot " ++ toString r2.id ++ ")"))
        else
          .ok (r1, haltR r2, addWarning ws
            ("Robot " ++ toString r2.id ++
             " waiting (fallback with Robot " ++ toString r1.id ++ ")"))
    else
      if distance > p.collision_threshold + p.release_margin then
        .ok (releaseR p r1, releaseR p r2, ws)
      else
        .ok (r1, r2, ws)

/-- Inner loop over the second index `j` of the pairwise pass. -/
def innerLoop (M : NumModel) (p : TMParams) (vmO : Option VMap)
    (gO : Option NavGraphL) (i : Nat) :
    List Nat → List Robot × List String →
    Except PyErr (List Robot × List String)
  | [], st => .ok st
  | j :: js, (rs, ws) =>
    match rs.get? i, rs.get? j with
    | some r1, some r2 =>
      match pairBody M p vmO gO r1 r2 ws with
      | .error e => .error e
      | .ok (r1', r2', ws') =>
        innerLoop M p vmO gO i js ((rs.set i r1').set j r2', ws')
    | _, _ => .error .indexError

/-- Outer loop over the first index `i` of the pairwise pass. -/
def outerLoop (M : NumModel) (p : TMParams) (vmO : Option VMap)
    (gO : Option NavGraphL) (n : Nat) :
    List Nat → List Robot × List String →
    Except PyErr (List Robot × List String)
  | [], st => .ok st
  | i :: is', st =>
    match innerLoop M p vmO gO i (List.range' (i + 1) (n - (i + 1))) st with
    | .error e => .error e
    | .ok st' => outerLoop M p vmO gO n is' st'

/-- Model of `TrafficManager.check_collisions` (`tarffic_manager.py`):
clear the warning list, run the reset pass over all robots, then the
pairwise conflict pass over all ordered index pairs `i < j`, returning
the updated roster and the accumulated warnings. -/
def checkCollisions (M : NumModel) (p : TMParams) (robots : List Robot)
    (vmO : Option VMap) (gO : Option NavGraphL) :
    Except PyErr (List Robot × List String) :=
  let rs := robots.map (resetRobot p)
  outerLoop M p vmO gO robots.length (List.range robots.length) (rs, [])

/-- Per-tick motion updates of the whole roster, in order, threading the
shared vertex map (`FleetDashboard.updateRobots`, first half). -/
def updateAll (M : NumModel) : List Robot → VMap →
    Except PyErr (List Robot × VMap)
  | [], vm => .ok ([], vm)
  | r :: rs, vm =>
    match updatePosition M vm r with
    | .error e => .error e
    | .ok (vm1, r') =>
      match updateAll M rs vm1 with
      | .error e => .error e
      | .ok (rs', vm2) => .ok (r' :: rs', vm2)

/-- One tick of the composed system as driven by
`FleetDashboard.updateRobots`: every robot's motion update, then the
collision pass with the vertex map and graph supplied. -/
def systemTick (M : NumModel) (p : TMParams) (g : NavGraphL)
    (vm : VMap) (robots : List Robot) :
    Except PyErr (VMap × List Robot × List String) :=
  match updateAll M robots vm with
  | .error e => .error e
  | .ok (rs, vm1) =>
    match checkCollisions M p rs (some vm1) (some g) with
    | .error e => .error e
    | .ok (rs', ws) => .ok (vm1, rs', ws)

/-- A bare vertex as `load_graph` would store it (no reservation, empty
queue). -/
def plainV (x y : ℚ) : Vertex :=
  { pos := (x, y), name := "", is_charger := false,
    reserved_by := none, waiting_queue := none }

/-- Two-vertex map: vertex 0 at the origin, vertex 1 at `(10, 0)`. -/
def vmTwo : VMap := [(0, plainV 0 0), (1, plainV 10 0)]

/-- Two-vertex graph with a single lane `0 – 1`. -/
def gTwo : NavGraphL :=
  { vertices := vmTwo, edges := [(0, 1, 10)], lanes := [(0, 1)] }

/-- Four-vertex graph with two connected components `{0, 1}` and
`{2, 3}`. -/
def gSplit : NavGraphL :=
  { vertices := [(0, plainV 0 0), (1, plainV 10 0),
                 (2, plainV 50 0), (3, plainV 60 0)]
    edges := [(0, 1, 10), (2, 3, 10)]
    lanes := [(0, 1), (2, 3)] }

/-- A freshly spawned robot 1 standing on vertex 0. -/
def rFresh : Robot :=
  { id := 1, pos := (0, 0), current_vertex_index := 0,
    current_destination_index := none, route := [], speed := 2,
    selected := false, waiting := false, status := "unassigned" }

/-- Robot 1 heading for vertex 1 with a `robot.py`-style paired route
entry. -/
def rPaired : Robot :=
  { id := 1, pos := (0, 0), current_vertex_index := 0,
    current_destination_index := none, route := [.pair 1 (10, 0)], speed := 2,
    selected := false, waiting := false, status := "moving" }

/-- Vertex map in which robot 2 holds vertex 1. -/
def vmHeld : VMap := [(0, plainV 0 0), (1, { plainV 10 0 with reserved_by := some 2 })]

/-- Single-vertex map whose vertex 0 is held by robot 1. -/
def vmHeld0 : VMap := [(0, { plainV 400 300 with reserved_by := some 1 })]

/-- Robot 1 with a destination index (99) that no vertex has. -/
def rBadDest : Robot :=
  { id := 1, pos := (0, 0), current_vertex_index := 0,
    current_destination_index := some 99, route := [], speed := 2,
    selected := false, waiting := false, status := "moving" }

/-- Robot 2 standing five units from `rBadDest` (inside the collision
threshold). -/
def rNear : Robot :=
  { id := 2, pos := (5, 0), current_vertex_index := 1,
    current_destination_index := none, route := [], speed := 2,
    selected := false, waiting := false, status := "moving" }

/-- Robot 1 at `(10, 0)` moving right toward a waypoint at `(100, 0)`
along an `assign_task`-style bare-point route. -/
def rChaseA : Robot :=
  { id := 1, pos := (10, 0), current_vertex_index := 0,
    current_destination_index := none, route := [.pt (100, 0)], speed := 2,
    selected := false, waiting := false, status := "moving" }

/-- Robot 2 at `(14, 0)`, four units ahead of `rChaseA`, moving right
toward `(114, 0)`. -/
def rChaseB : Robot :=
  { id := 2, pos := (14, 0), current_vertex_index := 1,
    current_destination_index := none, route := [.pt (114, 0)], speed := 2,
    selected := false, waiting := false, status := "moving" }

/-- Single-vertex map whose vertex 1 is held by robot 5. -/
def vmQueue : VMap := [(1, { plainV 10 0 with reserved_by := some 5 })]

/-- Robot 7, used to exercise the waiting-queue access of
`assign_task`. -/
def rSeven : Robot := { rFresh with id := 7 }

/-- Input document with one vertex at raw coordinates `(1, 2)` and no
lanes. -/
def docRaw : NavDoc :=
  { levels := [], root := { vertices := [⟨1, 2, none, none⟩], lanes := [] } }

/-- Input document with two vertices and one lane between them. -/
def docLane : NavDoc :=
  { levels := [],
    root := { vertices := [⟨0, 0, none, none⟩, ⟨3, 4, none, none⟩],
              lanes := [⟨0, 1⟩] } }

/-- Result robot of the C6 witness assignment. -/
def rRes : Robot :=
  { rFresh with status := "task assigned",
                route := [RouteEntry.pt (0, 0), RouteEntry.pt (10, 0)],
                current_vertex_index := 1 }

/-- Result vertex map of the C6 witness assignment. -/
def vmRes : VMap :=
  [(0, plainV 0 0), (1, { plainV 10 0 with reserved_by := some 1 })]

/-- No-handoff predicate between two snapshots of the vertex map: any
vertex holding an agent in both snapshots holds the same agent, i.e. a
reservation never passes directly from one agent to another. -/
def NoHandoff (vm vm' : VMap) : Prop :=
  ∀ idx a b, reservedOf vm idx = some a → reservedOf vm' idx = some b → a = b

/-- Every member of the seed set survives the endpoint fold. -/
theorem subset_foldr_touched (l : List (Nat × Nat × ℚ)) (init : Finset Nat) :
    init ⊆ l.foldr (fun e s => insert e.1 (insert e.2.1 s)) init := by
  induction l with
  | nil => exact fun x hx => hx
  | cons e rest ih =>
    intro x hx
    exact Finset.mem_insert_of_mem (Finset.mem_insert_of_mem (ih hx))

/-- Both endpoints of every listed edge appear in the endpoint fold. -/
theorem endpoints_mem_foldr (l : List (Nat × Nat × ℚ)) (init : Finset Nat)
    {e : Nat × Nat × ℚ} (he : e ∈ l) :
    e.1 ∈ l.foldr (fun e s => insert e.1 (insert e.2.1 s)) init ∧
    e.2.1 ∈ l.foldr (fun e s => insert e.1 (insert e.2.1 s)) init := by
  induction l with
  | nil => cases he
  | cons a rest ih =>
    rcases List.mem_cons.mp he with h | h
    · subst h
      exact ⟨Finset.mem_insert_self _ _,
        Finset.mem_insert_of_mem (Finset.mem_insert_self _ _)⟩
    · exact ⟨Finset.mem_insert_of_mem (Finset.mem_insert_of_mem (ih h).1),
        Finset.mem_insert_of_mem (Finset.mem_insert_of_mem (ih h).2)⟩

/-- The start vertex is always a candidate. -/
theorem mem_touched_self (g : NavGraphL) (u : Nat) : u ∈ touched g u :=
  subset_foldr_touched g.edges {u} (Finset.mem_singleton_self u)

/-- Any vertex adjacent to anything is a candidate. -/
theorem mem_touched_of_adjB (g : NavGraphL) (u : Nat) {w v : Nat}
    (h : adjB g w v = true) : v ∈ touched g u := by
  rcases List.any_eq_true.mp h with ⟨e, he, hpe⟩
  rcases Bool.or_eq_true_iff.mp hpe with h1 | h1
  · have hv : e.2.1 = v := by
      have := (Bool.and_eq_true _ _).mp h1
      exact eq_of_beq this.2
    exact hv ▸ (endpoints_mem_foldr g.edges {u} he).2
  · have hv : e.1 = v := by
      have := (Bool.and_eq_true _ _).mp h1
      exact eq_of_beq this.1
    exact hv ▸ (endpoints_mem_foldr g.edges {u} he).1

/-- A breadth step only grows the set. -/
theorem subset_stepF (g : NavGraphL) (base s : Finset Nat) :
    s ⊆ stepF g base s :=
  Finset.subset_union_left

/-- The breadth layers grow with the step count. -/
theorem reachF_subset_succ (g : NavGraphL) (u : Nat) (n : Nat) :
    reachF g u n ⊆ reachF g u (n + 1) :=
  subset_stepF g (touched g u) (reachF g u n)

/-- Monotonicity of the breadth layers. -/
theorem reachF_subset_of_le (g : NavGraphL) (u : Nat) {m n : Nat}
    (h : m ≤ n) : reachF g u m ⊆ reachF g u n := by
  induction n with
  | zero => cases Nat.le_zero.mp h; exact fun x hx => hx
  | succ n ih =>
    rcases Nat.lt_or_ge m (n + 1) with hlt | hge
    · exact (ih (Nat.lt_succ_iff.mp hlt)).trans (reachF_subset_succ g u n)
    · have : m = n + 1 := Nat.le_antisymm h hge
      subst this
      exact fun x hx => hx

/-- Every breadth layer stays inside the candidate set. -/
theorem reachF_subset_touched (g : NavGraphL) (u : Nat) (n : Nat) :
    reachF g u n ⊆ touched g u := by
  induction n with
  | zero =>
    intro x hx
    rw [reachF, Finset.mem_singleton] at hx
    exact hx ▸ mem_touched_self g u
  | succ n ih =>
    intro x hx
    rcases Finset.mem_union.mp hx with h | h
    · exact ih h
    · exact (Finset.mem_filter.mp h).1

/-- Soundness of the breadth iteration: every member of a layer is
connected to the start. -/
theorem reachF_sound (g : NavGraphL) (u : Nat) (n : Nat) {v : Nat}
    (h : v ∈ reachF g u n) : Reachable g u v := by
  induction n generalizing v with
  | zero =>
    rw [reachF, Finset.mem_singleton] at h
    exact h ▸ Relation.ReflTransGen.refl
  | succ n ih =>
    rcases Finset.mem_union.mp h with h1 | h1
    · exact ih h1
    · rcases Finset.mem_filter.mp h1 with ⟨_, w, hw, hadj⟩
      exact (ih hw).tail hadj

/-- Completeness of the breadth iteration: every connected vertex shows
up in some layer. -/
theorem reachF_complete (g : NavGraphL) (u : Nat) {v : Nat}
    (h : Reachable g u v) : ∃ n, v ∈ reachF g u n := by
  induction h with
  | refl => exact ⟨0, Finset.mem_singleton_self u⟩
  | tail _ hadj ih =>
    rcases ih with ⟨n, hn⟩
    refine ⟨n + 1, Finset.mem_union_right _ (Finset.mem_filter.mpr ?_)⟩
    exact ⟨mem_touched_of_adjB g u hadj, _, hn, hadj⟩

/-- Once two consecutive layers agree the iteration is stationary. -/
theorem reachF_stab (g : NavGraphL) (u : Nat) (n : Nat)
    (h : reachF g u (n + 1) = reachF g u n) :
    ∀ m, n ≤ m → reachF g u m = reachF g u n := by
  intro m hm
  induction m, hm using Nat.le_induction with
  | base => rfl
  | succ m _ ih =>
    calc reachF g u (m + 1) = stepF g (touched g u) (reachF g u m) := rfl
      _ = stepF g (touched g u) (reachF g u n) := by rw [ih]
      _ = reachF g u (n + 1) := rfl
      _ = reachF g u n := h

/-- The iteration saturates within `astarFuel` steps: some pair of
consecutive layers within the candidate-count bound agrees. -/
theorem reachF_exists_fix (g : NavGraphL) (u : Nat) :
    ∃ n, n < astarFuel g u ∧ reachF g u (n + 1) = reachF g u n := by
  by_contra hcon
  push_neg at hcon
  have grow : ∀ n, n ≤ astarFuel g u → n + 1 ≤ (reachF g u n).card := by
    intro n
    induction n with
    | zero =>
      intro _
      simp [reachF]
    | succ n ih =>
      intro hle
      have hn : n < astarFuel g u := Nat.lt_of_succ_le hle
      have h1 : n + 1 ≤ (reachF g u n).card := ih (Nat.le_of_lt hn)
      have hss : reachF g u n ⊂ reachF g u (n + 1) :=
        Finset.ssubset_iff_subset_ne.mpr
          ⟨reachF_subset_succ g u n, fun he => hcon n hn he.symm⟩
      exact Nat.succ_le_of_lt (Nat.lt_of_le_of_lt h1 (Finset.card_lt_card hss))
  have h1 : astarFuel g u + 1 ≤ (reachF g u (astarFuel g u)).card :=
    grow (astarFuel g u) (Nat.le_refl _)
  have h2 : (reachF g u (astarFuel g u)).card ≤ astarFuel g u :=
    Finset.card_le_card (reachF_subset_touched g u (astarFuel g u))
  omega

/-- Every layer is contained in the layer at the saturation bound. -/
theorem reachF_saturates (g : NavGraphL) (u : Nat) (m : Nat) :
    reachF g u m ⊆ reachF g u (astarFuel g u) := by
  rcases reachF_exists_fix g u with ⟨n, hn, hfix⟩
  rcases Nat.le_total m (astarFuel g u) with hle | hge
  · exact reachF_subset_of_le g u hle
  · have hm : reachF g u m = reachF g u n :=
      reachF_stab g u n hfix m ((Nat.le_of_lt hn).trans hge)
    have hC : reachF g u (astarFuel g u) = reachF g u n :=
      reachF_stab g u n hfix _ (Nat.le_of_lt hn)
    rw [hm, hC]

/-- The saturated layer decides connectivity exactly. -/
theorem mem_reach_iff (g : NavGraphL) (u v : Nat) :
    v ∈ reachF g u (astarFuel g u) ↔ Reachable g u v := by
  constructor
  · exact reachF_sound g u (astarFuel g u)
  · intro h
    rcases reachF_complete g u h with ⟨n, hn⟩
    exact reachF_saturates g u n hn

/-- Path extraction never returns an empty sequence. -/
theorem extract_ne_nil (g : NavGraphL) (u : Nat) (n v : Nat) :
    extract g u n v ≠ [] := by
  induction n generalizing v with
  | zero => simp [extract]
  | succ n ih =>
    rw [extract]
    by_cases hmem : v ∈ reachF g u n
    · rw [if_pos hmem]
      exact ih v
    · rw [if_neg hmem]
      cases pickPred g (reachF g u n) v with
      | some w => simp
      | none => simp

/-- Lookup after a pointwise map update: the updated key sees the
updated value, all other keys are untouched. -/
theorem lookup_mapUpd (vm : List (Nat × Vertex)) (idx : Nat)
    (f : Vertex → Vertex) (i : Nat) :
    List.lookup i (vm.map (fun kv => if kv.1 = idx then (kv.1, f kv.2) else kv)) =
      if i = idx then (List.lookup i vm).map f else List.lookup i vm := by
  induction vm with
  | nil => by_cases h : i = idx <;> simp [h]
  | cons kv rest ih =>
    obtain ⟨k, v⟩ := kv
    by_cases hk : k = idx
    · subst hk
      by_cases hi : i = k
      · subst hi
        simp [List.lookup_cons]
      · have hb : (i == k) = false := beq_eq_false_iff_ne.mpr hi
        simp [List.lookup_cons, hb, hi, ih]
    · by_cases hi : i = k
      · subst hi
        simp [List.lookup_cons, hk, ih]
      · have hb : (i == k) = false := beq_eq_false_iff_ne.mpr hi
        simp [List.lookup_cons, hb, hk, hi, ih]

/-- Successful `updV` leaves the lookup of every other key unchanged and
maps the value at the updated key. -/
theorem lookup_of_updV {vm : VMap} {idx : Nat} {f : Vertex → Vertex}
    {vm' : VMap} (h : updV vm idx f = .ok vm') (i : Nat) :
    List.lookup i vm' =
      if i = idx then (List.lookup i vm).map f else List.lookup i vm := by
  unfold updV at h
  cases hl : List.lookup idx vm with
  | none => rw [hl] at h; cases h
  | some v0 =>
    rw [hl] at h
    cases h
    exact lookup_mapUpd vm idx f i

/-- Claim C2: for every robot whose route is non-empty, if the route's
next waypoint vertex has `reserved_by` set to a different agent's id,
the per-tick motion update sets the robot's status to waiting and
`waiting = true` and leaves the robot's position (and the vertex map)
unchanged for that tick, so a robot never moves into a vertex reserved
by another agent. -/
theorem C2_blocked_waypoint_waits (M : NumModel) (vm : VMap) (r : Robot)
    (nidx : Nat) (np : ℚ × ℚ) (rest : List RouteEntry) (vx : Vertex) (j : Nat)
    (hroute : r.route = .pair nidx np :: rest)
    (hlook : List.lookup nidx vm = some vx)
    (hres : vx.reserved_by = some j)
    (hj : j ≠ r.id) :
    updatePosition M vm r =
      .ok (vm, { r with status := "waiting", waiting := true }) := by
  unfold updatePosition
  rw [hroute]
  simp only [getV, hlook]
  have hcond : vx.reserved_by ≠ none ∧ vx.reserved_by ≠ some r.id := by
    rw [hres]
    exact ⟨Option.some_ne_none j, by simpa using hj⟩
  simp [hcond, Except.bind]

/-- Witness for C2: robot 1 heading for vertex 1 while robot 2 holds
it stays in place and turns to waiting. -/
theorem C2_witness :
    updatePosition ratNumModel vmHeld rPaired =
      .ok (vmHeld, { rPaired with status := "waiting", waiting := true }) :=
  C2_blocked_waypoint_waits ratNumModel vmHeld rPaired 1 (10, 0) []
    { plainV 10 0 with reserved_by := some 2 } 2
    rfl (by decide) (by decide) (by decide)

/-- Claim C7: for every pair of vertices of the graph with no
connecting path, `get_shortest_path` returns the empty sequence (and
raises nothing, being a total function that catches the no-path
signal); for every pair joined by a path it returns a non-empty vertex
sequence. -/
theorem C7_shortest_path_connectivity (g : NavGraphL) (u v : Nat)
    (hu : (List.lookup u g.vertices).isSome = true)
    (hv : (List.lookup v g.vertices).isSome = true) :
    (¬ Reachable g u v → get_shortest_path g u v = []) ∧
    (Reachable g u v → get_shortest_path g u v ≠ []) := by
  constructor
  · intro hnr
    unfold get_shortest_path astar_path
    rw [if_neg (fun hmem => hnr ((mem_reach_iff g u v).mp hmem))]
    rfl
  · intro hr
    unfold get_shortest_path astar_path
    rw [if_pos ((mem_reach_iff g u v).mpr hr)]
    exact extract_ne_nil g u (astarFuel g u) v

/-- Witness for C7: on the two-component graph, vertex 2 is
unreachable from vertex 0 and the query returns `[]`, while vertex 1
is reachable and the query returns a non-empty path. -/
theorem C7_witness :
    get_shortest_path gSplit 0 2 = [] ∧ get_shortest_path gSplit 0 1 ≠ [] := by
  constructor
  · exact (C7_shortest_path_connectivity gSplit 0 2 (by decide) (by decide)).1
      (fun h => by
        have hmem := (mem_reach_iff gSplit 0 2).mpr h
        revert hmem
        decide)
  · exact (C7_shortest_path_connectivity gSplit 0 1 (by decide) (by decide)).2
      ((mem_reach_iff gSplit 0 1).mp (by decide))

/-- Claim C8 (code bug): `spawn_robot` is claimed to return a
registered robot with a fresh id, status unassigned, and its start
vertex reserved; but the call `Robot(position[0], position[1],
self.robot_counter, vertex_index)` omits the required `vertex_items`
parameter of `Robot.__init__`, so every spawn raises `TypeError`
instead — here evaluated on a fresh fleet state. -/
theorem C8_spawn_always_type_errors :
    spawn_robot { robots := [], robot_counter := 1 } 0 (400, 300) =
      .error .typeError := rfl

/-- Claim C3 (code bug): the collision pass is claimed never to raise
and to treat an out-of-range destination index as a per-robot no-op;
but `check_collisions` indexes `vertex_items` with the robot's
destination unguarded, so a robot whose `current_destination_index`
(99) names no vertex makes the whole pass raise `KeyError` once it is
within collision range of any other robot, aborting the tick for every
robot. -/
theorem C3_out_of_range_destination_aborts_pass :
    checkCollisions ratNumModel defaultTM [rBadDest, rNear]
      (some vmTwo) (some gTwo) = .error .keyError := by
  decide

/-- Claim C4 (code bug): the hysteresis property — a robot held
waiting by a collision must not resume until the separation exceeds
threshold plus margin — cannot hold in the composed system: a tick
over two approaching robots with routes as `assign_task` builds them
(bare points) raises `TypeError` in `Robot.update_position`, which
unpacks each route entry as a `(vertex, point)` pair, before any
collision hold can be tracked at all; independently,
`Robot.update_position` unconditionally sets `waiting = False` and
status moving for any unblocked robot with a route, so a hold could
not persist across ticks even with agreeing route formats. -/
theorem C4_tick_type_errors_before_hysteresis :
    systemTick ratNumModel defaultTM gTwo vmTwo [rChaseA, rChaseB] =
      .error .typeError := by
  decide

/-- A robot whose destination is unset is never replanned by the
conflict branch. -/
theorem replanIfBlocked_of_none (vmO : Option VMap) (gO : Option NavGraphL)
    (r : Robot) (h : r.current_destination_index = none) :
    replanIfBlocked vmO gO r = .ok r := by
  unfold replanIfBlocked
  cases vmO with
  | none => rfl
  | some vm =>
    cases gO with
    | none => rfl
    | some g => rw [h]

/-- Claim C5: for an ordered pair of unselected robots within the
collision threshold (destinations unset, so no replanning applies)
treated as a live conflict — the first robot has a moving direction,
the separation vector lies ahead of it (`dot > 0`) and within the
angle threshold — exactly the robot whose remaining route distance is
strictly larger is halted (`speed = 0`, `waiting = true`, status
waiting) while the other is returned untouched; at exactly equal
remaining distances, and likewise when the first robot has no moving
direction, the robot with the higher id is the one halted. -/
theorem C5_larger_remaining_yields (M : NumModel) (p : TMParams)
    (vmO : Option VMap) (gO : Option NavGraphL) (r1 r2 : Robot) (ws : List String)
    (hsel1 : r1.selected = false) (hsel2 : r2.selected = false)
    (hcdi1 : r1.current_destination_index = none)
    (hcdi2 : r2.current_destination_index = none)
    (hd : hypotM M (r2.pos.1 - r1.pos.1) (r2.pos.2 - r1.pos.2) < p.collision_threshold) :
    (∀ u, dirHead M r1 = .ok (some u) →
      (r2.pos.1 - r1.pos.1) * u.1 + (r2.pos.2 - r1.pos.2) * u.2 > 0 →
      M.arccos (clampQ (((r2.pos.1 - r1.pos.1) * u.1 + (r2.pos.2 - r1.pos.2) * u.2) /
        hypotM M (r2.pos.1 - r1.pos.1) (r2.pos.2 - r1.pos.2))) < p.angle_threshold →
      ∀ d1 d2, computeRemaining M r1 = .ok d1 → computeRemaining M r2 = .ok d2 →
        (d1 > d2 → pairBody M p vmO gO r1 r2 ws =
            .ok (haltR r1, r2, addWarning ws ("Robot " ++ toString r1.id ++
              " waiting (collision with Robot " ++ toString r2.id ++ ")"))) ∧
        (d2 > d1 → pairBody M p vmO gO r1 r2 ws =
            .ok (r1, haltR r2, addWarning ws ("Robot " ++ toString r2.id ++
              " waiting (collision with Robot " ++ toString r1.id ++ ")"))) ∧
        (d1 = d2 → r1.id > r2.id → pairBody M p vmO gO r1 r2 ws =
            .ok (haltR r1, r2, addWarning ws ("Robot " ++ toString r1.id ++
              " waiting (tie-breaker with Robot " ++ toString r2.id ++ ")"))) ∧
        (d1 = d2 → ¬ r1.id > r2.id → pairBody M p vmO gO r1 r2 ws =
            .ok (r1, haltR r2, addWarning ws ("Robot " ++ toString r2.id ++
              " waiting (tie-breaker with Robot " ++ toString r1.id ++ ")")))) ∧
    (dirHead M r1 = .ok none →
      (r1.id > r2.id → pairBody M p vmO gO r1 r2 ws =
          .ok (haltR r1, r2, addWarning ws ("Robot " ++ toString r1.id ++
            " waiting (fallback with Robot " ++ toString r2.id ++ ")"))) ∧
      (¬ r1.id > r2.id → pairBody M p vmO gO r1 r2 ws =
          .ok (r1, haltR r2, addWarning ws ("Robot " ++ toString r2.id ++
            " waiting (fallback with Robot " ++ toString r1.id ++ ")")))) := by
  have hrb1 := replanIfBlocked_of_none vmO gO r1 hcdi1
  have hrb2 := replanIfBlocked_of_none vmO gO r2 hcdi2
  constructor
  · intro u hdir hdot hangle d1 d2 h1 h2
    refine ⟨fun hgt => ?_, fun hgt => ?_, fun heq hid => ?_, fun heq hid => ?_⟩
    · unfold pairBody
      simp only [hsel1, hsel2, Bool.false_eq_true, or_self, if_false, if_pos hd,
        hrb1, hrb2, hdir, h1, h2, if_pos hdot, if_pos hangle, if_pos hgt]
    · unfold pairBody
      simp only [hsel1, hsel2, Bool.false_eq_true, or_self, if_false, if_pos hd,
        hrb1, hrb2, hdir, h1, h2, if_pos hdot, if_pos hangle,
        if_neg (lt_asymm hgt), if_pos hgt]
    · have hne1 : ¬ d1 > d2 := by rw [heq]; exact lt_irrefl d2
      have hne2 : ¬ d2 > d1 := by rw [heq]; exact lt_irrefl d2
      unfold pairBody
      simp only [hsel1, hsel2, Bool.false_eq_true, or_self, if_false, if_pos hd,
        hrb1, hrb2, hdir, h1, h2, if_pos hdot, if_pos hangle,
        if_neg hne1, if_neg hne2, if_pos hid]
    · have hne1 : ¬ d1 > d2 := by rw [heq]; exact lt_irrefl d2
      have hne2 : ¬ d2 > d1 := by rw [heq]; exact lt_irrefl d2
      unfold pairBody
      simp only [hsel1, hsel2, Bool.false_eq_true, or_self, if_false, if_pos hd,
        hrb1, hrb2, hdir, h1, h2, if_pos hdot, if_pos hangle,
        if_neg hne1, if_neg hne2, if_neg hid]
  · intro hdir
    refine ⟨fun hid => ?_, fun hid => ?_⟩
    · unfold pairBody
      simp only [hsel1, hsel2, Bool.false_eq_true, or_self, if_false, if_pos hd,
        hrb1, hrb2, hdir, if_pos hid]
    · unfold pairBody
      simp only [hsel1, hsel2, Bool.false_eq_true, or_self, if_false, if_pos hd,
        hrb1, hrb2, hdir, if_neg hid]

/-- Witness for C5: robot 1 (90 remaining) chases robot 2 (100
remaining) head-on four units apart; robot 2, having the strictly
larger remaining distance, is the one halted, and robot 1 is
untouched. -/
theorem C5_witness :
    pairBody ratNumModel defaultTM none none rChaseA rChaseB [] =
      .ok (rChaseA, haltR rChaseB, ["Robot 2 waiting (collision with Robot 1)"]) := by
  have h := C5_larger_remaining_yields ratNumModel defaultTM none none
    rChaseA rChaseB [] rfl rfl rfl rfl (by decide)
  exact ((h.1 (1, 0) (by decide) (by decide) (by decide) 90 100
    (by decide) (by decide)).2.1) (by decide)

/-- Claim C10 (code bug): enqueueing a waiting agent is claimed to be
idempotent (no duplicate ids in the vertex's waiting queue, FIFO
order, non-holders only); but the program's only enqueue —
`vertex["waiting_queue"].append(robot.id)` in `assign_task` — raises
`KeyError` in every state the program produces, because no code ever
creates the `waiting_queue` key: here robot 7 assigned toward vertex 1
(held by robot 5, queue key absent as `load_graph` leaves every
vertex) fails before any status or queue write, so no waiting queue
ever comes into being. -/
theorem C10_enqueue_key_errors :
    assignTask gTwo rSeven 1 vmQueue = .error .keyError := by
  decide

/-- A successful route build returns exactly the stored positions of
the path vertices, in order, as bare waypoints. -/
theorem routeOfPath_ok (vm : VMap) (l : List Nat) (route : List RouteEntry)
    (h : routeOfPath vm l = .ok route) :
    route = l.map (fun idx => RouteEntry.pt (posOf vm idx)) := by
  induction l generalizing route with
  | nil =>
    unfold routeOfPath at h
    cases h
    rfl
  | cons idx rest ih =>
    unfold routeOfPath at h
    cases hl : List.lookup idx vm with
    | none => rw [hl] at h; cases h
    | some v =>
      rw [hl] at h
      cases hr : routeOfPath vm rest with
      | error e => rw [hr] at h; cases h
      | ok route' =>
        rw [hr] at h
        cases h
        rw [List.map_cons, ← ih route' hr]
        unfold posOf
        rw [hl]
        rfl

/-- Claim C6 (counterexample): `assign_task` is claimed to set
`current_destination_index` to the destination and build the route as
the path excluding the start, paired with vertex ids; on the
two-vertex graph it in fact leaves `current_destination_index` unset
(`none`, not `some 1`), builds the route as the bare positions of all
path vertices including the start, and immediately rewrites
`current_vertex_index` to the destination. -/
theorem C6_counterexample :
    (assignTask gTwo rFresh 1 vmTwo).map
        (fun p => (p.1.current_destination_index, p.1.route,
                   p.1.current_vertex_index)) =
      .ok (none, [RouteEntry.pt (0, 0), RouteEntry.pt (10, 0)], 1) ∧
    ¬ (assignTask gTwo rFresh 1 vmTwo).map
        (fun p => p.1.current_destination_index) = .ok (some 1) := by
  decide

/-- Inversion of `assign_task` on a reserved destination: a success is
only possible when the vertex's `waiting_queue` key exists, and then
the robot is returned waiting and the only vertex change is the queue
append. -/
theorem assignTask_reserved_inv (g : NavGraphL) (r : Robot) (dest : Nat)
    (vm : VMap) (vx : Vertex) (a : Nat) (r' : Robot) (vm' : VMap)
    (hv : List.lookup dest vm = some vx)
    (ha : vx.reserved_by = some a)
    (h : assignTask g r dest vm = .ok (r', vm')) :
    ∃ q, vx.waiting_queue = some q ∧
      r' = { r with status := "waiting" } ∧
      ∀ i, List.lookup i vm' =
        if i = dest then
          some { vx with waiting_queue := some (q ++ [r.id]) }
        else List.lookup i vm := by
  unfold assignTask at h
  rw [hv] at h
  simp only [ha] at h
  cases hq : vx.waiting_queue with
  | none => rw [hq] at h; cases h
  | some q =>
    rw [hq] at h
    simp only [] at h
    cases hupd : updV vm dest
        (fun v => { v with waiting_queue := some (q ++ [r.id]) }) with
    | error e =>
      exfalso
      unfold updV at hupd
      rw [hv] at hupd
      cases hupd
    | ok vmq =>
      rw [hupd] at h
      cases h
      refine ⟨q, rfl, rfl, fun i => ?_⟩
      rw [lookup_of_updV hupd i]
      by_cases hi : i = dest
      · subst hi
        rw [if_pos rfl, if_pos rfl, hv]
        rfl
      · rw [if_neg hi, if_neg hi]

/-- Inversion of `assign_task` on an unreserved destination: the
vertex is reserved for the robot, the status becomes task assigned,
and the route/current-vertex updates depend only on whether the path
query was empty; `current_destination_index` is never written. -/
theorem assignTask_unreserved_inv (g : NavGraphL) (r : Robot) (dest : Nat)
    (vm : VMap) (vx : Vertex) (r' : Robot) (vm' : VMap)
    (hv : List.lookup dest vm = some vx)
    (ha : vx.reserved_by = none)
    (h : assignTask g r dest vm = .ok (r', vm')) :
    (∀ i, List.lookup i vm' =
      if i = dest then some { vx with reserved_by := some r.id }
      else List.lookup i vm) ∧
    (get_shortest_path g r.current_vertex_index dest = [] →
      r' = { r with status := "task assigned" }) ∧
    (get_shortest_path g r.current_vertex_index dest ≠ [] →
      r' = { r with status := "task assigned",
                    route := (get_shortest_path g r.current_vertex_index dest).map
                      (fun idx => RouteEntry.pt (posOf vm' idx)),
                    current_vertex_index := dest }) := by
  unfold assignTask at h
  rw [hv] at h
  simp only [ha] at h
  cases hupd : updV vm dest (fun v => { v with reserved_by := some r.id }) with
  | error e =>
    exfalso
    unfold updV at hupd
    rw [hv] at hupd
    cases hupd
  | ok vmq =>
    rw [hupd] at h
    simp only [] at h
    have hlk : ∀ i, List.lookup i vmq =
        if i = dest then some { vx with reserved_by := some r.id }
        else List.lookup i vm := by
      intro i
      rw [lookup_of_updV hupd i]
      by_cases hi : i = dest
      · subst hi
        rw [if_pos rfl, if_pos rfl, hv]
        rfl
      · rw [if_neg hi, if_neg hi]
    by_cases hpath : get_shortest_path g r.current_vertex_index dest = []
    · rw [if_pos (List.isEmpty_iff.mpr hpath)] at h
      cases h
      exact ⟨hlk, fun _ => rfl, fun hne => absurd hpath hne⟩
    · rw [if_neg (fun hempty => hpath (List.isEmpty_iff.mp hempty))] at h
      cases hroute : routeOfPath vmq (get_shortest_path g r.current_vertex_index dest) with
      | error e => rw [hroute] at h; cases h
      | ok route =>
        rw [hroute] at h
        cases h
        refine ⟨hlk, fun heq => absurd heq hpath, fun _ => ?_⟩
        rw [← routeOfPath_ok vm' _ route hroute]

/-- Amended C6: on a reserved destination `assign_task` raises
`KeyError` before writing anything — it appends to the vertex's
`waiting_queue` key, which no code in the repository ever creates; on
an unreserved destination it reserves
the vertex for the robot, sets status task assigned and — when the
path query is non-empty — sets the route to the bare stored positions
of all path vertices (start included, no vertex ids attached) and
rewrites `current_vertex_index` to the destination, while an empty
path leaves route and current vertex unchanged (status still task
assigned, no retry); `current_destination_index` is never written on
any branch. -/
theorem C6_assign_task_behavior (g : NavGraphL) (r : Robot) (dest : Nat)
    (vm : VMap) (vx : Vertex)
    (hv : List.lookup dest vm = some vx) :
    (∀ a, vx.reserved_by = some a → vx.waiting_queue = none →
      assignTask g r dest vm = .error .keyError) ∧
    (vx.reserved_by = none →
      ∀ r' vm', assignTask g r dest vm = .ok (r', vm') →
        r'.status = "task assigned" ∧
        r'.current_destination_index = r.current_destination_index ∧
        reservedOf vm' dest = some r.id ∧
        (get_shortest_path g r.current_vertex_index dest = [] →
          r'.route = r.route ∧
          r'.current_vertex_index = r.current_vertex_index) ∧
        (get_shortest_path g r.current_vertex_index dest ≠ [] →
          r'.route = (get_shortest_path g r.current_vertex_index dest).map
            (fun idx => RouteEntry.pt (posOf vm' idx)) ∧
          r'.current_vertex_index = dest)) := by
  constructor
  · intro a ha hq
    unfold assignTask
    rw [hv]
    simp only [ha, hq]
  · intro ha r' vm' h
    obtain ⟨hlk, hempty, hfull⟩ :=
      assignTask_unreserved_inv g r dest vm vx r' vm' hv ha h
    have hres : reservedOf vm' dest = some r.id := by
      unfold reservedOf
      rw [hlk dest, if_pos rfl]
      rfl
    by_cases hpath : get_shortest_path g r.current_vertex_index dest = []
    · have := hempty hpath
      subst this
      exact ⟨rfl, rfl, hres, fun _ => ⟨rfl, rfl⟩, fun hne => absurd hpath hne⟩
    · have := hfull hpath
      subst this
      exact ⟨rfl, rfl, hres, fun heq => absurd heq hpath, fun _ => ⟨rfl, rfl⟩⟩

/-- Witness for C6 (amended): robot 1 assigned from vertex 0 to the
free vertex 1 of the two-vertex graph ends task assigned with the
route `[pt (0,0), pt (10,0)]` (both path positions, start included),
its current vertex rewritten to 1, its destination index still
unset, and the destination reserved for it. -/
theorem C6_witness :
    assignTask gTwo rFresh 1 vmTwo = .ok (rRes, vmRes) ∧
    rRes.status = "task assigned" ∧
    rRes.current_destination_index = rFresh.current_destination_index ∧
    reservedOf vmRes 1 = some rFresh.id ∧
    rRes.route = (get_shortest_path gTwo 0 1).map
      (fun idx => RouteEntry.pt (posOf vmRes idx)) ∧
    rRes.current_vertex_index = 1 := by
  have he : assignTask gTwo rFresh 1 vmTwo = .ok (rRes, vmRes) := by decide
  have h := (C6_assign_task_behavior gTwo rFresh 1 vmTwo (plainV 10 0)
    (by decide)).2 (by decide) rRes vmRes he
  refine ⟨he, h.1, h.2.1, h.2.2.1, ?_, ?_⟩
  · exact (h.2.2.2.2 (by decide)).1
  · exact (h.2.2.2.2 (by decide)).2

/-- Lookup in the enumerated vertex dictionary: index `base + i` holds
the vertex built from the `i`-th definition. -/
theorem buildVerts_lookup (l : List VertexDef) (base i : Nat) :
    List.lookup (base + i) (buildVerts base l) =
      (l.get? i).map (fun vd => mkVertex (base + i) vd) := by
  induction l generalizing base i with
  | nil => simp [buildVerts]
  | cons vd rest ih =>
    cases i with
    | zero =>
      rw [buildVerts, List.lookup_cons]
      simp
    | succ i' =>
      rw [buildVerts, List.lookup_cons]
      have hb : (base + (i' + 1) == base) = false := by
        apply beq_eq_false_iff_ne.mpr
        omega
      rw [hb]
      have harith : base + (i' + 1) = (base + 1) + i' := by omega
      rw [harith, ih (base + 1) i']
      rfl

/-- Every edge produced by the lane pass connects two defined vertices
and carries the Euclidean distance of their stored positions. -/
theorem addLanes_weights (M : NumModel) (verts : List (Nat × Vertex))
    (lanes : List LaneDef) :
    ∀ e ∈ (addLanes M verts lanes).1, ∃ va vb,
      List.lookup e.1 verts = some va ∧
      List.lookup e.2.1 verts = some vb ∧
      e.2.2 = hypotM M (vb.pos.1 - va.pos.1) (vb.pos.2 - va.pos.2) := by
  induction lanes with
  | nil =>
    intro e he
    simp [addLanes] at he
  | cons ld rest ih =>
    intro e he
    rw [addLanes] at he
    cases hA : List.lookup ld.a verts with
    | none =>
      rw [hA] at he
      exact ih e he
    | some va =>
      cases hB : List.lookup ld.b verts with
      | none =>
        rw [hA, hB] at he
        exact ih e he
      | some vb =>
        rw [hA, hB] at he
        rcases List.mem_cons.mp he with h | h
        · subst h
          exact ⟨va, vb, hA, hB, rfl⟩
        · exact ih e h

/-- Claim C9 (counterexample): vertex positions are claimed to be the
raw input coordinates; but `load_graph` stores `raw * 50 + (400, 300)`,
so the vertex defined at `(1, 2)` is stored at `(450, 400)`. -/
theorem C9_counterexample :
    (List.lookup 0 (loadGraph ratNumModel docRaw).vertices).map Vertex.pos =
      some (450, 400) ∧
    ¬ (List.lookup 0 (loadGraph ratNumModel docRaw).vertices).map Vertex.pos =
      some (1, 2) := by
  decide

/-- Amended C9: for every loaded graph, the stored position of vertex
`i` is the raw input coordinate scaled by 50 and offset by
`(400, 300)`; and each recorded lane's edge weight equals the
Euclidean distance between the two stored endpoint positions. -/
theorem C9_scaled_positions_euclidean_weights (M : NumModel) (d : NavDoc)
    (i : Nat) (vd : VertexDef)
    (hi : (levelData d).vertices.get? i = some vd) :
    List.lookup i (loadGraph M d).vertices = some (mkVertex i vd) ∧
    (mkVertex i vd).pos = (vd.x * 50 + 400, vd.y * 50 + 300) ∧
    ∀ e ∈ (loadGraph M d).edges, ∃ va vb,
      List.lookup e.1 (loadGraph M d).vertices = some va ∧
      List.lookup e.2.1 (loadGraph M d).vertices = some vb ∧
      e.2.2 = hypotM M (vb.pos.1 - va.pos.1) (vb.pos.2 - va.pos.2) := by
  refine ⟨?_, rfl, ?_⟩
  · have h := buildVerts_lookup (levelData d).vertices 0 i
    rw [Nat.zero_add] at h
    show List.lookup i (buildVerts 0 (levelData d).vertices) = _
    rw [h, hi]
    rfl
  · intro e he
    exact addLanes_weights M (buildVerts 0 (levelData d).vertices)
      (levelData d).lanes e he

/-- Witness for C9 (amended): the document with a vertex at raw
`(0, 0)` stores it at `(400, 300)` under index 0. -/
theorem C9_witness :
    List.lookup 0 (loadGraph ratNumModel docLane).vertices =
      some (mkVertex 0 ⟨0, 0, none, none⟩) ∧
    (mkVertex 0 (⟨0, 0, none, none⟩ : VertexDef)).pos =
      (0 * 50 + 400, 0 * 50 + 300) := by
  have h := C9_scaled_positions_euclidean_weights ratNumModel docLane 0
    ⟨0, 0, none, none⟩ (by decide)
  exact ⟨h.1, h.2.1⟩

/-- Release in `Robot.update_position`'s leave check can only clear a
reservation or leave it alone, never hand it to another agent. -/
theorem leaveCheck_reserved (M : NumModel) (origId : Nat) (vm1 : VMap)
    (r1 : Robot) (vm2 : VMap) (r2 : Robot)
    (h : leaveCheck M origId vm1 r1 = .ok (vm2, r2)) (idx : Nat) :
    reservedOf vm2 idx = reservedOf vm1 idx ∨ reservedOf vm2 idx = none := by
  unfold leaveCheck at h
  cases hl : List.lookup r1.current_vertex_index vm1 with
  | none => rw [hl] at h; cases h
  | some pv =>
    rw [hl] at h
    simp only [] at h
    by_cases hdist : hypotM M (r1.pos.1 - pv.pos.1) (r1.pos.2 - pv.pos.2) >
        AT_VERTEX_THRESHOLD
    · rw [if_pos hdist] at h
      by_cases hres : pv.reserved_by = some origId
      · rw [if_pos hres] at h
        cases hupd : updV vm1 r1.current_vertex_index
            (fun v => { v with reserved_by := none }) with
        | error e => rw [hupd] at h; cases h
        | ok vmx =>
          rw [hupd] at h
          cases h
          have hlk := lookup_of_updV hupd idx
          by_cases hi : idx = r1.current_vertex_index
          · right
            unfold reservedOf
            rw [hlk, if_pos hi]
            cases List.lookup idx vm1 with
            | none => rfl
            | some v => rfl
          · left
            unfold reservedOf
            rw [hlk, if_neg hi]
      · rw [if_neg hres] at h
        cases h
        left
        rfl
    · rw [if_neg hdist] at h
      cases h
      left
      rfl

theorem updatePosition_noHandoff (M : NumModel) (vm : VMap) (r : Robot)
    (hcdi : r.current_destination_index = none)
    (vm' : VMap) (r' : Robot)
    (h : updatePosition M vm r = .ok (vm', r')) :
    NoHandoff vm vm' := by
  intro idx a b hb ha'
  unfold updatePosition at h
  cases hroute : r.route with
  | nil =>
    rw [hroute] at h
    rw [hcdi] at h
    simp only [] at h
    by_cases hst : r.status ∈ (["task assigned", "moving", "waiting"] : List String)
    · rw [if_pos hst] at h
      cases h
      rw [hb] at ha'
      exact (Option.some.injEq a b).mp ha'
    · rw [if_neg hst] at h
      cases h
      rw [hb] at ha'
      exact (Option.some.injEq a b).mp ha'
  | cons e rest =>
    rw [hroute] at h
    cases e with
    | pt q => cases h
    | pair nidx np =>
      simp only [] at h
      cases hl : List.lookup nidx vm with
      | none => rw [hl] at h; cases h
      | some vx =>
        rw [hl] at h
        simp only [] at h
        by_cases hblk : vx.reserved_by ≠ none ∧ vx.reserved_by ≠ some r.id
        · rw [if_pos hblk] at h
          cases h
          rw [hb] at ha'
          exact (Option.some.injEq a b).mp ha'
        · rw [if_neg hblk] at h
          push_neg at hblk
          by_cases harr : hypotM M (np.1 - r.pos.1) (np.2 - r.pos.2) < r.speed
          · rw [if_pos harr] at h
            cases hupd : updV vm nidx (fun v => { v with reserved_by := some r.id }) with
            | error e => rw [hupd] at h; cases h
            | ok vm1 =>
              rw [hupd] at h
              simp only [] at h
              rcases leaveCheck_reserved M r.id vm1 _ vm' r' h idx with hsame | hnone
              · rw [hsame] at ha'
                have hlk := lookup_of_updV hupd idx
                by_cases hi : idx = nidx
                · subst hi
                  unfold reservedOf at ha' hb
                  rw [hlk, if_pos rfl, hl] at ha'
                  rw [hl] at hb
                  have hbid : b = r.id := by
                    have h2 : r.id = b := by simpa using ha'
                    exact h2.symm
                  have hva : vx.reserved_by = some a := by
                    simpa using hb
                  rcases Decidable.em (vx.reserved_by = none) with hn | hn
                  · rw [hn] at hva; cases hva
                  · have := hblk hn
                    rw [hva] at this
                    have haid : a = r.id := by
                      simpa using this
                    rw [haid, hbid]
                · unfold reservedOf at ha' hb
                  rw [hlk, if_neg hi] at ha'
                  rw [hb] at ha'
                  exact (Option.some.injEq a b).mp ha'
              · rw [hnone] at ha'
                cases ha'
          · rw [if_neg harr] at h
            simp only [] at h
            rcases leaveCheck_reserved M r.id vm _ vm' r' h idx with hsame | hnone
            · rw [hsame] at ha'
              rw [hb] at ha'
              exact (Option.some.injEq a b).mp ha'
            · rw [hnone] at ha'
              cases ha'

/-- `assign_task` never moves a reservation directly from one agent to
another: it only appends to a queue or reserves a previously free
vertex. -/
theorem assignTask_noHandoff (g : NavGraphL) (r : Robot) (dest : Nat)
    (vm : VMap) (r' : Robot) (vm' : VMap)
    (h : assignTask g r dest vm = .ok (r', vm')) :
    NoHandoff vm vm' := by
  intro idx a b hb ha'
  cases hv : List.lookup dest vm with
  | none =>
    unfold assignTask at h
    rw [hv] at h
    cases h
  | some vx =>
    cases hres : vx.reserved_by with
    | some c =>
      obtain ⟨q, _, _, hlk⟩ :=
        assignTask_reserved_inv g r dest vm vx c r' vm' hv hres h
      unfold reservedOf at ha' hb
      rw [hlk idx] at ha'
      by_cases hi : idx = dest
      · subst hi
        rw [if_pos rfl] at ha'
        rw [hv] at hb
        have hbv : vx.reserved_by = some b := by simpa using ha'
        have hav : vx.reserved_by = some a := by simpa using hb
        rw [hav] at hbv
        exact (Option.some.injEq a b).mp hbv
      · rw [if_neg hi] at ha'
        rw [hb] at ha'
        exact (Option.some.injEq a b).mp ha'
    | none =>
      obtain ⟨hlk, _, _⟩ := assignTask_unreserved_inv g r dest vm vx r' vm' hv hres h
      unfold reservedOf at ha' hb
      rw [hlk idx] at ha'
      by_cases hi : idx = dest
      · subst hi
        rw [if_pos rfl] at ha'
        rw [hv] at hb
        have hav : vx.reserved_by = some a := by simpa using hb
        rw [hres] at hav
        cases hav
      · rw [if_neg hi] at ha'
        rw [hb] at ha'
        exact (Option.some.injEq a b).mp ha'

/-- Claim C1 (counterexample): no operation is claimed ever to change a
vertex's `reserved_by` directly from one agent to a different agent
without a release in between; but the robot constructor (spawn)
reserves its start vertex unconditionally, rewriting vertex 0's holder
from agent 1 straight to agent 2. -/
theorem C1_counterexample :
    reservedOf vmHeld0 0 = some 1 ∧
    (robotInit 400 300 2 0 vmHeld0).map (fun p => reservedOf p.2 0) =
      .ok (some 2) := by
  decide

/-- Amended C1: `reserved_by` is a single optional field, so it names
at most one agent; `assign_task` never changes a vertex's holder from
one agent directly to another, and neither does the motion update of a
robot whose `current_destination_index` is unset (as it is in every
state this program produces, since nothing ever writes that field);
spawn (the robot constructor), however, overwrites the start vertex's
holder unconditionally, so the no-direct-handoff property fails there. -/
theorem C1_no_direct_handoff_except_spawn (M : NumModel) (g : NavGraphL)
    (r : Robot) (dest : Nat) (vm : VMap)
    (hcdi : r.current_destination_index = none) :
    (∀ r' vm', assignTask g r dest vm = .ok (r', vm') → NoHandoff vm vm') ∧
    (∀ vm' r', updatePosition M vm r = .ok (vm', r') → NoHandoff vm vm') :=
  ⟨fun r' vm' h => assignTask_noHandoff g r dest vm r' vm' h,
   fun vm' r' h => updatePosition_noHandoff M vm r hcdi vm' r' h⟩

/-- Witness for C1 (amended): the motion update of robot 1 blocked by
robot 2's reservation leaves the vertex map unchanged, hence hands no
reservation over. -/
theorem C1_witness : NoHandoff vmHeld vmHeld :=
  (C1_no_direct_handoff_except_spawn ratNumModel gTwo rPaired 1 vmHeld rfl).2
    vmHeld { rPaired with status := "waiting", waiting := true } (by decide)
